import Mathlib

/-!
# Verification of `parabot` (parabot/parabot.py)

A shallow embedding of the parabot dispatch/orchestration layer:

* in-memory capture buffers (Python StringIO objects) become `StringBuffer`
  values with an explicit `closed` flag;
* the external RobotFramework runner (`robot.run.run`) is abstracted by a
  `RunnerBehavior` parameter: its return code, what it writes to the two
  capture buffers, and whether it raises;
* `_check_stderr`, `path_worker`, `tag_worker`, `pool_path_workers`,
  `pool_tag_workers` and `main` are translated function by function from
  `parabot/parabot.py`;
* OS-level facts (wall-clock runtime of a batch, exit codes of spawned
  processes) enter as explicit parameters (`runtime`, `ProcOutcome`);
* `multiprocessing` semantics (`map_async(...).get(timeout)` raising
  `TimeoutError` when the batch is not done within `timeout`; `Process.join`
  followed by `Process.exitcode`) are modelled after the Python documentation
  referenced in the source's docstrings.

Helpers imported from `parabot.utils` (`get_parent_dir`,
`create_output_folder`) are not part of the sources; they are modelled from
the spec and marked as such in their doc comments.
-/

set_option autoImplicit false

namespace Parabot

/-- A `.robot` file path (Python `PurePath`), split into the segments of its
parent directory and its final component (`PurePath.name`). -/
structure RobotFile where
  parent : List String
  name : String
deriving DecidableEq

/-- Modelled from the spec: `get_parent_dir` (from `parabot.utils`, not in the
sources) returns the parent directory of a `.robot` file path. -/
def get_parent_dir (filepath : RobotFile) : List String :=
  filepath.parent

/-- Modelled from the spec: `create_output_folder` (from `parabot.utils`, not
in the sources) derives the per-Job output directory deterministically from a
base path and a name: outputs "land under a directory derived from the unit's
parent directory and file name" resp. under the fixed reports root joined
with the tag name. Modelled as path-segment concatenation. -/
def create_output_folder (basepath : List String) (name : String) : List String :=
  basepath ++ [name]

/-- The fixed reports root `"./reports/"` used by `tag_worker`. -/
def reports_root : List String :=
  [".", "reports"]

/-- An in-memory capture buffer: a Python StringIO object, with its text
contents and whether `close()` has been called on it. -/
structure StringBuffer where
  contents : String
  closed : Bool
deriving DecidableEq

/-- `StringIO(s)`: a fresh, open buffer holding `s`. -/
def mkStringBuffer (s : String) : StringBuffer :=
  { contents := s, closed := false }

/-- `buf.getvalue()`. -/
def StringBuffer.getvalue (b : StringBuffer) : String :=
  b.contents

/-- `buf.close()`. -/
def StringBuffer.close (b : StringBuffer) : StringBuffer :=
  { b with closed := true }

/-- One invocation of the external runner `robot.run.run`, abstracted by its
observable behavior: either it returns normally with return code `rc` having
written `out` to the captured stdout and `err` to the captured stderr, or it
raises after writing `out` and `err`. -/
inductive RunnerBehavior where
  | normal (rc : Int) (out err : String)
  | abort (out err : String)
deriving DecidableEq

/-- `run(..., outputdir=..., stdout=stdout, stderr=stderr)`: the runner writes
into the two provided buffers; on a normal return its return code is
produced (and, in the Python source, discarded by both workers); if it
raises, the exception propagates carrying no return code. The output
directory is routed to the external runner and does not affect the buffers. -/
def run (beh : RunnerBehavior) (_outputdir : List String)
    (stdout stderr : StringBuffer) :
    Except (StringBuffer × StringBuffer) (Int × StringBuffer × StringBuffer) :=
  match beh with
  | .normal rc out err =>
      .ok (rc, { stdout with contents := stdout.contents ++ out },
               { stderr with contents := stderr.contents ++ err })
  | .abort out err =>
      .error ({ stdout with contents := stdout.contents ++ out },
              { stderr with contents := stderr.contents ++ err })

/-- `_check_stderr(stderr)`: returns `1` (Fail) when the captured stderr is
non-empty, `None` (Ok) when it is empty, closing the buffer on both
branches. The result is paired with the final state of the buffer. -/
def _check_stderr (stderr : StringBuffer) : Option Int × StringBuffer :=
  if stderr.getvalue ≠ "" then
    (some 1, stderr.close)
  else
    (none, stderr.close)

/-- `path_worker(filepath)`: acquires fresh stdout/stderr buffers, invokes the
runner on the file with the derived output directory, echoes and closes
stdout, and classifies via `_check_stderr`. The first component is `some r`
when the worker returns `r` normally and `none` when the runner's exception
propagates (in which case no `close()` is reached); the second and third
components are the final states of the stdout resp. stderr buffers. -/
def path_worker (filepath : RobotFile) (runner : RunnerBehavior) :
    Option (Option Int) × StringBuffer × StringBuffer :=
  let basepath := get_parent_dir filepath
  let stdout := mkStringBuffer ""
  let stderr := mkStringBuffer ""
  match run runner (create_output_folder basepath filepath.name) stdout stderr with
  | .error (stdout, stderr) => (none, stdout, stderr)
  | .ok (_rc, stdout, stderr) =>
      let stdout := stdout.close
      let res := _check_stderr stderr
      (some res.1, stdout, res.2)

/-- `tag_worker(tag)`: same shape as `path_worker`, but the runner is invoked
on `"./"` with `include=[tag]` and output directory derived from the fixed
reports root and the tag name. -/
def tag_worker (tag : String) (runner : RunnerBehavior) :
    Option (Option Int) × StringBuffer × StringBuffer :=
  let stdout := mkStringBuffer ""
  let stderr := mkStringBuffer ""
  match run runner (create_output_folder reports_root tag) stdout stderr with
  | .error (stdout, stderr) => (none, stdout, stderr)
  | .ok (_rc, stdout, stderr) =>
      let stdout := stdout.close
      let res := _check_stderr stderr
      (some res.1, stdout, res.2)

/-- The outcome of `pool_path_workers`: Python returns
`Union[List[Optional[int]], int]` — either the full, order-aligned result
list, or a bare `int` sentinel after a timeout. -/
inductive PoolOutcome (β : Type) where
  | completed (results : List β)
  | timedOut (sentinel : Int)
deriving DecidableEq

/-- The diagnostic printed by `pool_path_workers` when the batch times out. -/
def timeout_msg : String :=
  "Your tests are running too long. Consider increasing the timeout via CLI parameter -to or --timeout."

/-- `pool.map_async(worker, jobs).get(timeout)`: `map_async` computes the
results in submission order in the background; `get` blocks until they are
ready — indefinitely when `timeout` is `None`, and for at most `timeout`
seconds otherwise, raising `TimeoutError` when the batch's true wall-clock
runtime exceeds the budget. -/
def async_get {β : Type} (runtime : Nat) (results : List β)
    (timeout : Option Nat) : Except Unit (List β) :=
  match timeout with
  | none => .ok results
  | some t => if runtime ≤ t then .ok results else .error ()

/-- `pool_path_workers(path_worker, filepathslist, timeout)`: maps the worker
over the file list in a spawn-context pool with `maxtasksperchild=1`; on
`TimeoutError` it prints the diagnostic and returns the sentinel `1`. The
batch's true wall-clock runtime is the explicit parameter `runtime`; the
second component of the result collects what the call prints. -/
def pool_path_workers {α β : Type} (worker : α → β) (filepathslist : List α)
    (runtime : Nat) (timeout : Nat) : PoolOutcome β × List String :=
  match async_get runtime (filepathslist.map worker) (some timeout) with
  | .ok res => (.completed res, [])
  | .error _ => (.timedOut 1, [timeout_msg])

/-- `pool_path_workers(path_worker, filepathslist)` with the timeout argument
omitted: the Python signature declares `timeout=60`, so the omitted argument
defaults to a 60-second budget for `get`. -/
def pool_path_workers_default {α β : Type} (worker : α → β)
    (filepathslist : List α) (runtime : Nat) : PoolOutcome β × List String :=
  pool_path_workers worker filepathslist runtime 60

/-- How a spawned tag process terminates: a normal exit with status `n`, or
termination by signal `s`. -/
inductive ProcOutcome where
  | exited (n : Nat)
  | signaled (s : Nat)
deriving DecidableEq

/-- `multiprocessing.Process.exitcode` semantics after the process has
terminated (Python docs, referenced by the source's docstring): the exit
status `n` for a normal exit, `-s` for termination by signal `s`. -/
def exitcodeAfterJoin : ProcOutcome → Int
  | .exited n => (n : Int)
  | .signaled s => -(s : Int)

/-- One `multiprocessing.Process` spawned for a tag: its tag, whether it has
been joined, and how it (eventually) terminates. -/
structure TagProcess where
  tag : String
  joined : Bool
  outcome : ProcOutcome
deriving DecidableEq

/-- `proc.exitcode`: `None` until the process has been joined (observed
terminated), afterwards the integer exit status. -/
def TagProcess.exitcode (p : TagProcess) : Option Int :=
  if p.joined then some (exitcodeAfterJoin p.outcome) else none

/-- The spawn loop of `pool_tag_workers`: `Process(target=tag_worker,
args=(tag,)); p.start()` for each tag, in order, collecting the processes in
the list `procesess` (sic). `outcome` is the environment's verdict on how
each tag's process terminates. -/
def start_processes (outcome : String → ProcOutcome) (tags : List String) :
    List TagProcess :=
  tags.map (fun t => { tag := t, joined := false, outcome := outcome t })

/-- The join loop `[proc.join() for proc in procesess]`: joins every spawned
process in spawn order; `join` returns regardless of the process's exit
status, so all processes are reaped. -/
def join_all (procs : List TagProcess) : List TagProcess :=
  procs.map (fun p => { p with joined := true })

/-- `pool_tag_workers(tag_worker, tags)`: spawns one process per tag, joins
them all in spawn order, and returns `[proc.exitcode for proc in
procesess]`. -/
def pool_tag_workers (outcome : String → ProcOutcome) (tags : List String) :
    List (Option Int) :=
  let procesess := start_processes outcome tags
  let procesess := join_all procesess
  procesess.map TagProcess.exitcode

/-- One unit of work, as the spec's data model describes it: a file reference
(file-Job) or a tag string (tag-Job). -/
inductive Job where
  | file (f : RobotFile)
  | tag (t : String)
deriving DecidableEq

/-- The output directory each worker passes to the runner: `path_worker` uses
`create_output_folder(get_parent_dir(filepath), filepath.name)`, `tag_worker`
uses `create_output_folder("./reports/", tag)`. -/
def Job.outputDir : Job → List String
  | .file f => create_output_folder (get_parent_dir f) f.name
  | .tag t => create_output_folder reports_root t

/-- The parsed CLI namespace consumed by `main`: the fields `parse_args`
provides, per their use in `main` and the spec's CLI table (`--all`,
`--folders`, `--tags`, `-to`/`--timeout`). -/
structure Args where
  all : Bool
  folders : Option (List String)
  tags : Option (List String)
  timeout : Option Nat

/-- The environment `main` runs in: the discovered `.robot` files
(`get_all_robot_files` / `get_specific_robot_files_by_paths`, external
discovery helpers from `parabot.utils`), the runner's behavior per file, each
submitted batch's true wall-clock runtime, and how each tag's spawned
process terminates. -/
structure Env where
  all_robot_files : List RobotFile
  files_by_paths : List String → List RobotFile
  behavior : RobotFile → RunnerBehavior
  batch_runtime : List RobotFile → Nat
  tag_outcome : String → ProcOutcome

/-- `main()`: routes `--all` and `--folders` selections to
`pool_path_workers` (passing `timeout=args.timeout` exactly when the flag was
given, and omitting the argument otherwise) and `--tags` to
`pool_tag_workers`; every pool result is bound to no variable and discarded,
and the function body ends without a `return` statement, returning `None`. -/
def main (args : Args) (env : Env) : Unit :=
  let worker : RobotFile → Option (Option Int) :=
    fun f => (path_worker f (env.behavior f)).1
  let _all_result :=
    if args.all then
      let filepathslist := env.all_robot_files
      match args.timeout with
      | none =>
          some (pool_path_workers_default worker filepathslist
            (env.batch_runtime filepathslist))
      | some t =>
          some (pool_path_workers worker filepathslist
            (env.batch_runtime filepathslist) t)
    else none
  let _folders_result :=
    match args.folders with
    | none => none
    | some folders =>
        let filepathslist := env.files_by_paths folders
        match args.timeout with
        | none =>
            some (pool_path_workers_default worker filepathslist
              (env.batch_runtime filepathslist))
        | some t =>
            some (pool_path_workers worker filepathslist
              (env.batch_runtime filepathslist) t)
  let _tags_result :=
    match args.tags with
    | none => none
    | some tags => some (pool_tag_workers env.tag_outcome tags)
  ()

/-- The exit status of the `parabot` process: `if __name__ == "__main__":
main()` runs `main` and, since `main` returns `None` and never calls
`sys.exit`, the interpreter exits with status `0`. -/
def parabot_exit_status (args : Args) (env : Env) : Nat :=
  let _ := main args env
  0

/-! ## Helper lemmas and sample inputs -/

lemma empty_string_append (s : String) : "" ++ s = s := rfl

lemma append_singleton_inj {p1 p2 : List String} {n1 n2 : String}
    (h : p1 ++ [n1] = p2 ++ [n2]) : p1 = p2 ∧ n1 = n2 := by
  have h2 := List.append_inj' h rfl
  exact ⟨h2.1, by simpa using h2.2⟩

/-- A concrete `.robot` file used to instantiate universally quantified
statements. -/
def sample_file : RobotFile :=
  { parent := ["suites"], name := "a.robot" }

/-- A runner invocation that succeeds writing nothing to either stream. -/
def ok_runner : RunnerBehavior :=
  .normal 0 "" ""

/-- `path_worker` specialised to the quiet runner, as a pool worker. -/
def sample_worker (f : RobotFile) : Option (Option Int) :=
  (path_worker f ok_runner).1

/-! ## Claims -/

/-- Claim C1: for every file-Job, `path_worker` classifies the run as Fail
(returns `1`) iff the captured stderr is non-empty after the runner
invocation, and as Ok (returns `None`) iff the captured stderr is empty,
regardless of the runner's own return value `rc`. -/
theorem c1_path_worker_fail_iff_stderr_nonempty :
    ∀ (f : RobotFile) (rc : Int) (out err : String),
      ((path_worker f (.normal rc out err)).1 = some (some 1) ↔ err ≠ "") ∧
      ((path_worker f (.normal rc out err)).1 = some none ↔ err = "") := by
  intro f rc out err
  by_cases h : err = "" <;>
    simp [path_worker, run, _check_stderr, StringBuffer.getvalue,
      mkStringBuffer, empty_string_append, h]

/-- Claim C2: for every job list submitted to the bounded pool with a timeout
strictly less than the batch's true runtime, `pool_path_workers` prints the
diagnostic advising the caller to raise the timeout and returns the sentinel
`1` (a bare int); it never returns a (partial) result list. -/
theorem c2_pool_path_workers_timeout_sentinel :
    ∀ {α β : Type} (worker : α → β) (jobs : List α) (runtime t : Nat),
      t < runtime →
      pool_path_workers worker jobs runtime t = (.timedOut 1, [timeout_msg]) ∧
      ∀ l : List β, (pool_path_workers worker jobs runtime t).1 ≠
        PoolOutcome.completed l := by
  intro α β worker jobs runtime t ht
  have hn : ¬ runtime ≤ t := by omega
  simp [pool_path_workers, async_get, hn]

/-- Witness for C2 at a concrete batch: runtime 2, timeout 1. -/
theorem c2_witness :
    (1 : Nat) < 2 ∧
    (pool_path_workers sample_worker [sample_file] 2 1 =
        (.timedOut 1, [timeout_msg]) ∧
      ∀ l : List (Option (Option Int)),
        (pool_path_workers sample_worker [sample_file] 2 1).1 ≠
          PoolOutcome.completed l) :=
  ⟨by decide,
   c2_pool_path_workers_timeout_sentinel sample_worker [sample_file] 2 1
     (by decide)⟩

/-- Claim C3 (counterexample): calling `pool_path_workers` without a timeout
argument does not block until the batch completes — with a batch whose true
runtime is 61 seconds it aborts with the sentinel, exhibiting the implicit
60-second default budget (`timeout=60` in the Python signature). -/
theorem c3_counterexample_default_timeout_fires :
    (pool_path_workers_default sample_worker [sample_file] 61).1 =
      PoolOutcome.timedOut 1 ∧
    (pool_path_workers_default sample_worker [sample_file] 61).1 ≠
      PoolOutcome.completed ([sample_file].map sample_worker) := by
  constructor
  · rfl
  · decide

/-- Claim C3 (amended): when no timeout argument is supplied,
`pool_path_workers` runs with the default budget of 60 seconds: it returns
the full result list when the batch's true runtime is at most 60 seconds and
the timeout sentinel (with the diagnostic) when the runtime exceeds 60
seconds; it does not wait indefinitely. -/
theorem c3_amended_default_is_sixty_seconds :
    ∀ {α β : Type} (worker : α → β) (jobs : List α) (runtime : Nat),
      pool_path_workers_default worker jobs runtime =
        pool_path_workers worker jobs runtime 60 ∧
      (runtime ≤ 60 →
        pool_path_workers_default worker jobs runtime =
          (.completed (jobs.map worker), [])) ∧
      (60 < runtime →
        pool_path_workers_default worker jobs runtime =
          (.timedOut 1, [timeout_msg])) := by
  intro α β worker jobs runtime
  refine ⟨rfl, ?_, ?_⟩
  · intro h
    simp [pool_path_workers_default, pool_path_workers, async_get, h]
  · intro h
    have hn : ¬ runtime ≤ 60 := by omega
    simp [pool_path_workers_default, pool_path_workers, async_get, hn]

/-- Witness for the amended C3 at a concrete batch finishing in 5 seconds. -/
theorem c3_witness :
    (5 : Nat) ≤ 60 ∧
    pool_path_workers_default sample_worker [sample_file] 5 =
      (.completed ([sample_file].map sample_worker), []) :=
  ⟨by decide,
   (c3_amended_default_is_sixty_seconds sample_worker [sample_file] 5).2.1
     (by decide)⟩

/-- Claim C5: when no timeout fires (the batch's true runtime is within the
budget), `pool_path_workers` returns the result list `jobs.map worker` —
order-aligned with submission order, the i-th result being the i-th job's
status — whose length equals the input list's length, and prints nothing. -/
theorem c5_pool_path_workers_order_aligned :
    ∀ {α β : Type} (worker : α → β) (jobs : List α) (runtime t : Nat),
      runtime ≤ t →
      pool_path_workers worker jobs runtime t =
        (.completed (jobs.map worker), []) ∧
      (jobs.map worker).length = jobs.length := by
  intro α β worker jobs runtime t h
  simp [pool_path_workers, async_get, h]

/-- Witness for C5 at a concrete batch: runtime 1, timeout 60. -/
theorem c5_witness :
    (1 : Nat) ≤ 60 ∧
    (pool_path_workers sample_worker [sample_file] 1 60 =
        (.completed ([sample_file].map sample_worker), []) ∧
      ([sample_file].map sample_worker).length = [sample_file].length) :=
  ⟨by decide,
   c5_pool_path_workers_order_aligned sample_worker [sample_file] 1 60
     (by decide)⟩

/-- Claim C10: the timeout sentinel returned by `pool_path_workers` is the
integer `1`, the same value `_check_stderr` returns for a failed file-Job;
timeouts and completed batches are distinguishable only by the shape of the
outcome (sentinel versus list), never by the value `1` itself. -/
theorem c10_sentinel_equals_fail_status :
    ∀ {α β : Type} (worker : α → β) (jobs : List α) (runtime t : Nat)
      (se : String),
      t < runtime → se ≠ "" →
      (_check_stderr (mkStringBuffer se)).1 = some 1 ∧
      (pool_path_workers worker jobs runtime t).1 = PoolOutcome.timedOut 1 ∧
      ∀ l : List β, (pool_path_workers worker jobs runtime t).1 ≠
        PoolOutcome.completed l := by
  intro α β worker jobs runtime t se ht hse
  have hn : ¬ runtime ≤ t := by omega
  simp [_check_stderr, StringBuffer.getvalue, mkStringBuffer,
    pool_path_workers, async_get, hn, hse]

/-- Witness for C10 at a concrete batch and a concrete non-empty stderr. -/
theorem c10_witness :
    ((1 : Nat) < 2 ∧ "boom" ≠ "") ∧
    ((_check_stderr (mkStringBuffer "boom")).1 = some 1 ∧
      (pool_path_workers sample_worker [sample_file] 2 1).1 =
        PoolOutcome.timedOut 1 ∧
      ∀ l : List (Option (Option Int)),
        (pool_path_workers sample_worker [sample_file] 2 1).1 ≠
          PoolOutcome.completed l) :=
  ⟨⟨by decide, by decide⟩,
   c10_sentinel_equals_fail_status sample_worker [sample_file] 2 1 "boom"
     (by decide) (by decide)⟩

/-- Claim C4: for every list of N tags, `pool_tag_workers` spawns exactly N
processes, returns only after every one of them has been joined, and returns
the list of their N exit statuses in spawn order — entry i is the exit
status of tag i's process, wrapped in `some` because every process is joined
before its `exitcode` is read, so no entry is `None`. -/
theorem c4_pool_tag_workers_joins_all :
    ∀ (outcome : String → ProcOutcome) (tags : List String),
      pool_tag_workers outcome tags =
        tags.map (fun t => some (exitcodeAfterJoin (outcome t))) ∧
      (start_processes outcome tags).length = tags.length ∧
      ((join_all (start_processes outcome tags)).all fun p => p.joined)
        = true := by
  intro outcome tags
  refine ⟨?_, ?_, ?_⟩
  · simp [pool_tag_workers, start_processes, join_all, TagProcess.exitcode,
      List.map_map, Function.comp]
  · simp [start_processes]
  · simp [join_all, start_processes, List.all_map, Function.comp]

/-- Claim C6: `main` discards the return values of `pool_path_workers` and
`pool_tag_workers` and returns `None` for every argument namespace and every
environment, so the process exit status is `0` no matter whether jobs
failed, the batch timed out, or everything succeeded. -/
theorem c6_main_discards_pool_results :
    ∀ (args args2 : Args) (env env2 : Env),
      main args env = () ∧
      parabot_exit_status args env = 0 ∧
      parabot_exit_status args env = parabot_exit_status args2 env2 := by
  intro args args2 env env2
  exact ⟨rfl, rfl, rfl⟩

/-- Claim C7 (counterexample): when the runner invocation terminates
abnormally (raises), neither worker reaches its `close()` calls — both
capture buffers are left unclosed, contradicting release on every exit
path. -/
theorem c7_counterexample_buffers_leak_on_abort :
    (path_worker sample_file (.abort "" "boom")).2.1.closed = false ∧
    (path_worker sample_file (.abort "" "boom")).2.2.closed = false ∧
    (tag_worker "smoke" (.abort "" "boom")).2.1.closed = false ∧
    (tag_worker "smoke" (.abort "" "boom")).2.2.closed = false :=
  ⟨rfl, rfl, rfl, rfl⟩

/-- Claim C7 (amended): on every normal-completion exit path of `path_worker`
and `tag_worker` — both the Ok and the Fail classification — the stdout and
stderr capture buffers are closed before the worker returns; but on the
abnormal path, where the runner raises, the buffers are not closed. -/
theorem c7_amended_buffers_closed_on_normal_exit :
    ∀ (f : RobotFile) (tag : String) (rc : Int) (out err : String),
      (path_worker f (.normal rc out err)).2.1.closed = true ∧
      (path_worker f (.normal rc out err)).2.2.closed = true ∧
      (tag_worker tag (.normal rc out err)).2.1.closed = true ∧
      (tag_worker tag (.normal rc out err)).2.2.closed = true ∧
      (path_worker f (.abort out err)).2.1.closed = false ∧
      (path_worker f (.abort out err)).2.2.closed = false ∧
      (tag_worker tag (.abort out err)).2.1.closed = false ∧
      (tag_worker tag (.abort out err)).2.2.closed = false := by
  intro f tag rc out err
  by_cases h : err = "" <;>
    simp [path_worker, tag_worker, run, _check_stderr, StringBuffer.getvalue,
      StringBuffer.close, mkStringBuffer, empty_string_append, h]

/-- Modelled from the spec: the FailureDetector rule for tag-Jobs — `Fail`
iff `ExitStatus != 0`. The classification itself is not in the sources
(`main` discards the exit-status list `pool_tag_workers` returns), so it is
taken from the spec's §4.4. -/
def tag_job_fail (status : Int) : Bool :=
  status != 0

/-- Claim C8: the exit status recorded for a tag-Job process is `0` on a
successful exit, the positive `N` on a nonzero exit with status `N`, and
`-S` on termination by signal `S`; a tag-Job is classified Fail exactly when
this status is nonzero; and the status the pool records for a tag is exactly
the joined process's exit code. -/
theorem c8_exit_status_semantics :
    ∀ (outcome : String → ProcOutcome) (tag : String) (n s : Nat),
      0 < n → 0 < s →
      exitcodeAfterJoin (.exited 0) = 0 ∧
      (exitcodeAfterJoin (.exited n) = (n : Int) ∧
        0 < exitcodeAfterJoin (.exited n)) ∧
      (exitcodeAfterJoin (.signaled s) = -(s : Int) ∧
        exitcodeAfterJoin (.signaled s) < 0) ∧
      (tag_job_fail (exitcodeAfterJoin (outcome tag)) = true ↔
        exitcodeAfterJoin (outcome tag) ≠ 0) ∧
      pool_tag_workers outcome [tag] =
        [some (exitcodeAfterJoin (outcome tag))] := by
  intro outcome tag n s hn hs
  refine ⟨rfl, ⟨rfl, ?_⟩, ⟨rfl, ?_⟩, ?_, ?_⟩
  · simpa [exitcodeAfterJoin] using hn
  · simp only [exitcodeAfterJoin]
    omega
  · simp [tag_job_fail]
  · simp [pool_tag_workers, start_processes, join_all, TagProcess.exitcode]

/-- Witness for C8 at a concrete signal-killed process (signal 9) and a
concrete nonzero exit status (2). -/
theorem c8_witness :
    ((0 : Nat) < 2 ∧ (0 : Nat) < 9) ∧
    (exitcodeAfterJoin (.exited 0) = 0 ∧
      (exitcodeAfterJoin (.exited 2) = (2 : Int) ∧
        0 < exitcodeAfterJoin (.exited 2)) ∧
      (exitcodeAfterJoin (.signaled 9) = -(9 : Int) ∧
        exitcodeAfterJoin (.signaled 9) < 0) ∧
      (tag_job_fail (exitcodeAfterJoin ((fun _ => ProcOutcome.signaled 9) "t"))
          = true ↔
        exitcodeAfterJoin ((fun _ => ProcOutcome.signaled 9) "t") ≠ 0) ∧
      pool_tag_workers (fun _ => ProcOutcome.signaled 9) ["t"] =
        [some (exitcodeAfterJoin ((fun _ => ProcOutcome.signaled 9) "t"))]) :=
  ⟨⟨by decide, by decide⟩,
   c8_exit_status_semantics (fun _ => ProcOutcome.signaled 9) "t" 2 9
     (by decide) (by decide)⟩

/-- Claim C9 (counterexample): a file-Job whose parent directory is the fixed
reports root and whose file name equals a tag is a different Job from that
tag-Job, yet the two are assigned the same output directory. -/
theorem c9_counterexample_outputdir_collision :
    Job.file { parent := [".", "reports"], name := "smoke.robot" } ≠
      Job.tag "smoke.robot" ∧
    (Job.file { parent := [".", "reports"], name := "smoke.robot" }).outputDir
      = (Job.tag "smoke.robot").outputDir :=
  ⟨by decide, rfl⟩

/-- Claim C9 (amended): any two distinct file-Jobs — in particular two whose
base unit names are identical but whose parent directories differ — are
assigned disjoint output directories, and likewise any two distinct
tag-Jobs; only a file-Job lying in the fixed reports root with file name
equal to a tag can collide with that tag-Job. -/
theorem c9_amended_outputdir_injective_per_kind :
    ∀ (f1 f2 : RobotFile) (t1 t2 : String),
      (f1 ≠ f2 → (Job.file f1).outputDir ≠ (Job.file f2).outputDir) ∧
      (t1 ≠ t2 → (Job.tag t1).outputDir ≠ (Job.tag t2).outputDir) := by
  intro f1 f2 t1 t2
  constructor
  · intro hne heq
    apply hne
    simp only [Job.outputDir, create_output_folder, get_parent_dir] at heq
    obtain ⟨hp, hn⟩ := append_singleton_inj heq
    cases f1
    cases f2
    simp_all
  · intro hne heq
    apply hne
    simp only [Job.outputDir, create_output_folder, reports_root] at heq
    simpa using heq

/-- Witness for the amended C9: two files with the same base name in
different directories, and two distinct tags. -/
theorem c9_witness :
    (Job.file { parent := ["a"], name := "x.robot" }).outputDir ≠
      (Job.file { parent := ["b"], name := "x.robot" }).outputDir ∧
    (Job.tag "smoke").outputDir ≠ (Job.tag "slow").outputDir :=
  ⟨(c9_amended_outputdir_injective_per_kind
      { parent := ["a"], name := "x.robot" }
      { parent := ["b"], name := "x.robot" } "smoke" "slow").1 (by decide),
   (c9_amended_outputdir_injective_per_kind
      { parent := ["a"], name := "x.robot" }
      { parent := ["b"], name := "x.robot" } "smoke" "slow").2 (by decide)⟩

end Parabot
